import Mathlib

/-!
Verification of the AttendanceApp check-in pipeline.

This file gives a shallow embedding of the parts of the repository that the
claims concern:

* the attendance classifier of `src/components/AdminView.tsx`
  (`resolveStatus`, `parseCutoffTime`, `getLocalTimeParts`) and the status
  display of `src/components/UserHistoryPanel.tsx` (`statusLabel`);
* the tiered geolocation ladder (`getDeviceLocation`, `isRetryableError`,
  `mapGeoError`, `formatPosition`);
* the `UserView` check-in component (`handleUploadAndSave`, `toggleCamera`,
  `capturePhoto`, `handleRetake`, `handleDelete`) modelled as a state machine.

Modelling conventions:

* JavaScript numbers are modelled as `ℚ`; `Math.round` and `toFixed(5)` are
  given explicit executable definitions (`jsRound`, `toFixed5`).
* A capture timestamp is modelled as `Option Int` — `some t` is the parsed
  instant in minutes since the epoch, `none` models an ISO string on which
  `new Date(...)` yields `NaN` (the classifier only reads hour/minute, so
  minute granularity is faithful).
* A record's IANA time zone is modelled by the wall-clock offset in minutes
  (`tzOffset`) that `Intl.DateTimeFormat` applies for that zone at the
  instant; `getLocalTimeParts` computes the local hour/minute from it.
* Asynchronous platform and network calls are modelled by passing their
  outcomes in as data (`Except` values) and recording the list of issued
  requests as an explicit trace, so ordering and short-circuiting are
  observable.
-/

/-- Hour/minute pair as produced by `parseCutoffTime` and
`getLocalTimeParts` in `AdminView.tsx`. -/
structure TimeParts where
  hour : Nat
  minute : Nat
deriving DecidableEq, Repr

/-- `parseCutoffTime` from `AdminView.tsx`: matches the anchored regex
`([01]\d|2[0-3]):([0-5]\d)` and converts the two groups with `Number`. -/
def parseCutoffTime (value : String) : Option TimeParts :=
  match value.data with
  | [h1, h2, c, m1, m2] =>
    if ((h1 = '0' ∨ h1 = '1') ∧ h2.isDigit = true ∨
          (h1 = '2' ∧ '0' ≤ h2 ∧ h2 ≤ '3')) ∧
        c = ':' ∧ ('0' ≤ m1 ∧ m1 ≤ '5') ∧ m2.isDigit = true then
      some ⟨(h1.toNat - '0'.toNat) * 10 + (h2.toNat - '0'.toNat),
            (m1.toNat - '0'.toNat) * 10 + (m2.toNat - '0'.toNat)⟩
    else none
  | _ => none

/-- `getLocalTimeParts` from `AdminView.tsx`.  `parsedAt = none` models a
`capturedAt` string for which `new Date(iso).getTime()` is `NaN`, in which
case the source returns `{ hour: 0, minute: 0 }`.  Otherwise the instant is
rendered as wall-clock hour/minute in the record's zone, modelled by adding
the zone's offset (in minutes) and reducing modulo one day. -/
def getLocalTimeParts (parsedAt : Option Int) (tzOffset : Int) : TimeParts :=
  match parsedAt with
  | none => ⟨0, 0⟩
  | some t =>
    let localMinutes := (t + tzOffset) % 1440
    ⟨localMinutes.toNat / 60, localMinutes.toNat % 60⟩

/-- The `AttendanceRecord` shape used by the components (`src/types` is
consumed by the views; field list per the data model).  `capturedAt` is the
parsed instant (`none` = unparseable ISO string), `tzOffset` the wall-clock
offset of the record's zone in minutes. -/
structure AttendanceRecord where
  id : Nat
  userId : Nat
  userName : String
  capturedAt : Option Int
  tzOffset : Int
  locationLabel : String
  latitude : Option ℚ
  longitude : Option ℚ
  accuracy : Option Int
  photoUrl : String
  photoPublicId : String
  status : String
  flagComment : Option String
deriving DecidableEq, Repr

/-- `resolveStatus` from `AdminView.tsx`: an invalid cutoff falls back to
`{ hour: 8, minute: 0 }`; before the cutoff hour, or at the cutoff hour with
minute not past the cutoff minute, the record is "On time", otherwise
"Late". -/
def resolveStatus (item : AttendanceRecord) (cutoffTime : String) : String :=
  let cutoff := (parseCutoffTime cutoffTime).getD ⟨8, 0⟩
  let parts := getLocalTimeParts item.capturedAt item.tzOffset
  if parts.hour < cutoff.hour then "On time"
  else if parts.hour = cutoff.hour ∧ parts.minute ≤ cutoff.minute then "On time"
  else "Late"

/-- The fields of an admin table row that carry record data
(`AdminRow` in `AdminView.tsx`; the locale-formatted time string and the
avatar initials are presentation only and omitted). -/
structure AdminRow where
  id : Nat
  name : String
  status : String
  location : String
  flagComment : Option String
deriving DecidableEq, Repr

/-- One attendance row of the admin listing in `AdminView.tsx`: the status
column is `resolveStatus(item, cutoffTime)`. -/
def adminRowOfItem (item : AttendanceRecord) (cutoffTime : String) : AdminRow :=
  { id := item.id
    name := item.userName
    status := resolveStatus item cutoffTime
    location := item.locationLabel
    flagComment := item.flagComment }

/-- The `attendanceRows` computation of `AdminView.tsx`: every fetched item
is mapped through `resolveStatus` against the currently configured cutoff. -/
def attendanceRows (items : List AttendanceRecord) (cutoffTime : String) :
    List AdminRow :=
  items.map (fun item => adminRowOfItem item cutoffTime)

/-- `statusLabel` from `UserHistoryPanel.tsx`: renders the stored
server-computed status field. -/
def statusLabel (status : String) : String :=
  if status = "late" then "Late" else "On time"

/-- The status cell of one row of the per-user history table in
`UserHistoryPanel.tsx`: `statusLabel(item.status)` — the stored status, with
no recomputation from the capture time or the cutoff. -/
def historyRowStatus (item : AttendanceRecord) : String :=
  statusLabel item.status

/-- Provenance of a resolved position (`source` field of `LocationResult`). -/
inductive Source where
  | gps
  | network
deriving DecidableEq, Repr

/-- The value rejected by a geolocation call, as the source inspects it.
`geo code` is an object carrying a numeric `code` property (a
`GeolocationPositionError`; 1 = PERMISSION_DENIED, 2 = POSITION_UNAVAILABLE,
3 = TIMEOUT).  `plain hasMessage` is an object without `code` (retryable
exactly when it has a `message` property).  `nonObject` is a null or
non-object rejection value. -/
inductive JsError where
  | geo (code : Nat)
  | plain (hasMessage : Bool)
  | nonObject
deriving DecidableEq, Repr

/-- `isRetryableError` from the location module: the value must be a truthy
object with a `code` or `message` property whose `code` is not
`PERMISSION_DENIED` (= 1; an absent `code` is `undefined` and so never equal
to 1). -/
def isRetryableError : JsError → Bool
  | .geo code => code ≠ 1
  | .plain hasMessage => hasMessage
  | .nonObject => false

/-- `mapGeoError` from the location module: translates a
`GeolocationPositionError` code into a human-readable message, with a
generic fallback for anything else. -/
def mapGeoError : JsError → String
  | .geo 1 => "Location permission denied. Please allow location access and retry."
  | .geo 2 => "Location is unavailable. Check your device GPS and try again."
  | .geo 3 => "Location request timed out. Try again in a few seconds."
  | .geo _ => "Unable to fetch location."
  | .plain _ => "Unable to fetch location."
  | .nonObject => "Unable to fetch location."

/-- The coordinates of a raw `GeolocationPosition` (JS numbers as `ℚ`). -/
structure GeoCoords where
  latitude : ℚ
  longitude : ℚ
  accuracy : ℚ
deriving DecidableEq, Repr

/-- JavaScript `Math.round`: half-way cases round toward positive
infinity. -/
def jsRound (x : ℚ) : Int := ⌊x + 1 / 2⌋

/-- Left-pad a string with zeros to the given length. -/
def padZeros (s : String) (len : Nat) : String :=
  (List.replicate (len - s.length) '0').asString ++ s

/-- JavaScript `Number.prototype.toFixed(5)`: the integer nearest to
`x * 10^5` (ties toward the larger integer) rendered with exactly five
fractional digits. -/
def toFixed5 (x : ℚ) : String :=
  let n : Int := ⌊x * 100000 + 1 / 2⌋
  let sign := if n < 0 then "-" else ""
  let m := n.natAbs
  sign ++ toString (m / 100000) ++ "." ++ padZeros (toString (m % 100000)) 5

/-- The `LocationResult` produced by the location module. -/
structure LocationResult where
  label : String
  latitude : ℚ
  longitude : ℚ
  accuracy : Option Int
  source : Source
deriving DecidableEq, Repr

/-- `formatPosition` from the location module: 5-decimal display rounding of
the coordinates, accuracy rounded to the nearest meter, `source = gps`, and
the synthesized label "GPS {lat}, {lng} (plus-minus {accuracy}m)". -/
def formatPosition (p : GeoCoords) : LocationResult :=
  let lat := toFixed5 p.latitude
  let lng := toFixed5 p.longitude
  let acc := jsRound p.accuracy
  { label := "GPS " ++ lat ++ ", " ++ lng ++ " (+/-" ++ toString acc ++ "m)"
    latitude := p.latitude
    longitude := p.longitude
    accuracy := some acc
    source := Source.gps }

/-- A `PositionOptions` value passed to the browser geolocation API. -/
structure PositionOptions where
  enableHighAccuracy : Bool
  timeout : Nat
  maximumAge : Nat
deriving DecidableEq, Repr

/-- A device geolocation request as issued by the ladder: either a
single-shot `getCurrentPosition` or a `watchPosition` (whose first fix is
taken and the watch then cleared). -/
inductive GeoRequest where
  | getCurrentPosition (opts : PositionOptions)
  | watchPosition (opts : PositionOptions)
deriving DecidableEq, Repr

/-- Options of the Tier 1 request (precise single shot). -/
def tier1Options : PositionOptions :=
  { enableHighAccuracy := true, timeout := 12000, maximumAge := 0 }

/-- Options of the Tier 2 request (precise continuous watch). -/
def tier2Options : PositionOptions :=
  { enableHighAccuracy := true, timeout := 20000, maximumAge := 0 }

/-- Options of the Tier 3 request (coarse single shot, cached fixes up to
60 s old accepted). -/
def tier3Options : PositionOptions :=
  { enableHighAccuracy := false, timeout := 20000, maximumAge := 60000 }

/-- The environment `getDeviceLocation` runs against: the browser
capability and security predicates it checks up front, and the outcome each
tier's device request would produce if issued. -/
structure GeoEnv where
  geolocationSupported : Bool
  isSecureContext : Bool
  hostname : String
  tier1 : Except JsError GeoCoords
  tier2 : Except JsError GeoCoords
  tier3 : Except JsError GeoCoords
deriving Repr

/-- `getDeviceLocation` from the location module, with the sequence of
device requests it issues made explicit as a trace.  Tier 1 is a
high-accuracy single shot; on a retryable failure Tier 2 starts a
high-accuracy watch; on a further retryable failure Tier 3 issues a
low-accuracy single shot; a non-retryable (permission-denied) failure or
exhaustion of Tier 3 surfaces the mapped error. -/
def getDeviceLocation (env : GeoEnv) :
    Except String LocationResult × List GeoRequest :=
  if env.geolocationSupported = false then
    (.error "Geolocation is not supported on this device.", [])
  else if env.isSecureContext = false ∧ env.hostname ≠ "localhost" then
    (.error "Location requires HTTPS. Please use a secure connection.", [])
  else
    match env.tier1 with
    | .ok p => (.ok (formatPosition p), [.getCurrentPosition tier1Options])
    | .error e1 =>
      if isRetryableError e1 then
        match env.tier2 with
        | .ok p =>
          (.ok (formatPosition p),
           [.getCurrentPosition tier1Options, .watchPosition tier2Options])
        | .error e2 =>
          if isRetryableError e2 then
            match env.tier3 with
            | .ok p =>
              (.ok (formatPosition p),
               [.getCurrentPosition tier1Options, .watchPosition tier2Options,
                .getCurrentPosition tier3Options])
            | .error e3 =>
              (.error (mapGeoError e3),
               [.getCurrentPosition tier1Options, .watchPosition tier2Options,
                .getCurrentPosition tier3Options])
          else
            (.error (mapGeoError e2),
             [.getCurrentPosition tier1Options, .watchPosition tier2Options])
      else
        (.error (mapGeoError e1), [.getCurrentPosition tier1Options])

/-- Result of `POST /uploads/photo`. -/
structure UploadResult where
  url : String
  publicId : String
deriving DecidableEq, Repr

/-- A remote call issued by `UserView` during a save or delete, with the
payload data the claims are about. -/
inductive RemoteCall where
  | deviceLocation
  | uploadPhoto (dataUrl : String)
  | createAttendance (photoUrl : String) (photoPublicId : String)
  | deleteAttendance (id : Nat)
deriving DecidableEq, Repr

/-- Outcomes of the asynchronous steps of one `handleUploadAndSave` run, as
the environment would deliver them if the corresponding call is issued.  An
`error` carries the human-readable message of the thrown `Error`. -/
structure SaveOutcomes where
  locationOutcome : Except String LocationResult
  uploadOutcome : Except String UploadResult
  createOutcome : Except String AttendanceRecord
deriving Repr

/-- The `UserView` component state (`useState` hooks of `part_003`), plus the
`token` prop.  The transient `locationChecking` flag is `true` only inside a
single handler run and is therefore `false` at every observable step. -/
structure UserViewState where
  token : Option String
  attendance : Option AttendanceRecord
  snapshot : Option String
  cameraOpen : Bool
  uploading : Bool
  error : String
  location : Option LocationResult
  locationError : String
  locationSource : Option Source
deriving Repr

/-- `handleUploadAndSave` from `UserView` (`part_003`), returning the new
component state and the ordered list of remote calls issued.  The handler
returns immediately without any call when no snapshot or no token is
present; it then resolves a position (reusing `location` state when set,
otherwise awaiting `getDeviceLocation`), aborting on failure; then uploads
the snapshot; then creates the record; on success it stores the canonical
record, rebuilds `location` from it, and clears the snapshot. -/
def handleUploadAndSave (s : UserViewState) (o : SaveOutcomes) :
    UserViewState × List RemoteCall :=
  if s.snapshot.isNone ∨ s.token.isNone then (s, [])
  else
    let snap := s.snapshot.getD ""
    let s1 := { s with uploading := true, error := "" }
    let rest := fun (resolved : LocationResult) (locCalls : List RemoteCall) =>
      let s2 :=
        if s1.locationSource.isNone then
          { s1 with locationSource := some Source.gps }
        else s1
      match o.uploadOutcome with
      | .error msg =>
        ({ s2 with error := msg, uploading := false },
         locCalls ++ [RemoteCall.uploadPhoto snap])
      | .ok up =>
        match o.createOutcome with
        | .error msg =>
          ({ s2 with error := msg, uploading := false },
           locCalls ++ [RemoteCall.uploadPhoto snap,
                        RemoteCall.createAttendance up.url up.publicId])
        | .ok record =>
          ({ s2 with
              attendance := some record
              location := some
                { label := record.locationLabel
                  latitude := record.latitude.getD resolved.latitude
                  longitude := record.longitude.getD resolved.longitude
                  accuracy :=
                    match record.accuracy with
                    | some a => some a
                    | none => resolved.accuracy
                  source := s2.locationSource.getD Source.gps }
              snapshot := none
              uploading := false },
           locCalls ++ [RemoteCall.uploadPhoto snap,
                        RemoteCall.createAttendance up.url up.publicId])
    match s1.location with
    | some cached => rest cached []
    | none =>
      match o.locationOutcome with
      | .ok r => rest r [RemoteCall.deviceLocation]
      | .error msg =>
        ({ s1 with error := msg, locationError := msg, uploading := false },
         [RemoteCall.deviceLocation])

/-- An interaction with the `UserView` component: one handler invocation
together with the outcomes the environment delivers for the calls that run
inside it.  `capturePhoto` carries the encoded data URL of the captured
frame; `retakePhoto` and `deleteRecord` correspond to the "Retake photo" and
"Delete and Retake" buttons. -/
inductive UserEvent where
  | toggleCamera
  | capturePhoto (dataUrl : String)
  | uploadAndSave (o : SaveOutcomes)
  | retakePhoto
  | deleteRecord (outcome : Except String Unit)
  | checkLocation (outcome : Except String LocationResult)
  | useNetworkLocation (label : String) (coords : Option (ℚ × ℚ))
  | networkLocationFailed (msg : String)

/-- Whether an event is an invocation of `handleDelete`. -/
def isDeleteEvent : UserEvent → Bool
  | .deleteRecord _ => true
  | _ => false

/-- One step of the `UserView` component.  Each branch follows the
corresponding handler of `part_003`; `capturePhoto` and `retakePhoto` are
additionally guarded by the conditions under which their buttons are
rendered at all (`cameraOpen` for the capture button, `snapshot` present and
no attendance for the retake button). -/
def stepEvent (s : UserViewState) : UserEvent → UserViewState
  | .toggleCamera =>
    if s.attendance.isSome then s
    else if s.cameraOpen then { s with error := "", cameraOpen := false }
    else { s with error := "", snapshot := none, cameraOpen := true }
  | .capturePhoto dataUrl =>
    if s.cameraOpen then { s with snapshot := some dataUrl, cameraOpen := false }
    else s
  | .uploadAndSave o => (handleUploadAndSave s o).1
  | .retakePhoto =>
    if s.snapshot.isSome ∧ s.attendance.isNone then
      { s with snapshot := none, cameraOpen := true }
    else s
  | .deleteRecord outcome =>
    if s.attendance.isNone ∨ s.token.isNone then s
    else
      match outcome with
      | .ok _ => { s with uploading := false, error := "", attendance := none }
      | .error msg => { s with uploading := false, error := msg }
  | .checkLocation outcome =>
    match outcome with
    | .ok r =>
      { s with location := some r, locationSource := some Source.gps,
               locationError := "" }
    | .error msg =>
      { s with location := none, locationSource := none, locationError := msg }
  | .useNetworkLocation label coords =>
    if s.token.isNone then s
    else
      match coords with
      | some (lat, lng) =>
        { s with
            location := some
              { label := label, latitude := lat, longitude := lng,
                accuracy := none, source := Source.network }
            locationSource := some Source.network
            locationError := "" }
      | none =>
        { s with location := none, locationSource := some Source.network,
                 locationError := "" }
  | .networkLocationFailed msg =>
    if s.token.isNone then s
    else
      { s with location := none, locationSource := none, locationError := msg }

/-- Run a sequence of interactions against the component. -/
def runEvents (s : UserViewState) (evs : List UserEvent) : UserViewState :=
  evs.foldl stepEvent s

/-- The component state right after mount: no snapshot, camera closed, and
`attendance` set to the record returned by `GET /attendance/today` (or
`none`). -/
def initState (a : Option AttendanceRecord) (tok : Option String) :
    UserViewState :=
  { token := tok, attendance := a, snapshot := none, cameraOpen := false,
    uploading := false, error := "", location := none, locationError := "",
    locationSource := none }

/-- Fixture: a record captured at 08:01 UTC (481 minutes past midnight). -/
def sampleRecord : AttendanceRecord :=
  { id := 1, userId := 7, userName := "Ada Lovelace",
    capturedAt := some 481, tzOffset := 0, locationLabel := "HQ",
    latitude := some 1, longitude := some 2, accuracy := some 5,
    photoUrl := "https://cdn.example.com/p.jpg", photoPublicId := "p1",
    status := "on_time", flagComment := none }

/-- Fixture: the same record with an unparseable `capturedAt`. -/
def sampleRecordNoTime : AttendanceRecord :=
  { sampleRecord with capturedAt := none }

/-- Fixture: the parsed cutoff `08:00`. -/
def sampleCutoffParts : TimeParts := ⟨8, 0⟩

/-- Fixture coordinates for a successful fix. -/
def sampleCoords : GeoCoords :=
  { latitude := 12.34567, longitude := 7.5, accuracy := 8.2 }

/-- Fixture: supported, secure environment whose Tier 1 request is denied. -/
def pdEnv : GeoEnv :=
  { geolocationSupported := true, isSecureContext := true,
    hostname := "app.example.com",
    tier1 := .error (.geo 1), tier2 := .ok sampleCoords,
    tier3 := .ok sampleCoords }

/-- Fixture: environment in which every tier fails retryably (timeout /
unavailable / timeout). -/
def escalateEnv : GeoEnv :=
  { geolocationSupported := true, isSecureContext := true,
    hostname := "app.example.com",
    tier1 := .error (.geo 3), tier2 := .error (.geo 2),
    tier3 := .error (.geo 3) }

/-- Fixture: environment whose Tier 1 request succeeds. -/
def successEnv : GeoEnv :=
  { geolocationSupported := true, isSecureContext := true,
    hostname := "app.example.com",
    tier1 := .ok sampleCoords, tier2 := .error (.geo 3),
    tier3 := .error (.geo 3) }

/-- Fixture: an already-resolved session location. -/
def sampleLocation : LocationResult :=
  { label := "GPS 12.34567, 7.50000 (+/-8m)", latitude := 12.34567,
    longitude := 7.5, accuracy := some 8, source := Source.gps }

/-- Fixture: component state with a captured snapshot, ready to save. -/
def readyState : UserViewState :=
  { token := some "tok", attendance := none,
    snapshot := some "data:image/jpeg;base64,AAA", cameraOpen := false,
    uploading := false, error := "", location := none, locationError := "",
    locationSource := none }

/-- Fixture: component state after a successful check-in. -/
def checkedInState : UserViewState :=
  { readyState with attendance := some sampleRecord, snapshot := none }

/-- Fixture: outcomes in which every remote step succeeds. -/
def okOutcomes : SaveOutcomes :=
  { locationOutcome := .ok sampleLocation,
    uploadOutcome := .ok ⟨"https://cdn.example.com/p.jpg", "p1"⟩,
    createOutcome := .ok sampleRecord }

/-- Fixture: outcomes in which position resolution fails. -/
def locFailOutcomes : SaveOutcomes :=
  { locationOutcome := .error "Location request timed out. Try again in a few seconds.",
    uploadOutcome := .ok ⟨"https://cdn.example.com/p.jpg", "p1"⟩,
    createOutcome := .ok sampleRecord }

/-- Fixture: outcomes in which the upload fails. -/
def uploadFailOutcomes : SaveOutcomes :=
  { locationOutcome := .ok sampleLocation,
    uploadOutcome := .error "Upload failed",
    createOutcome := .ok sampleRecord }

/-- The structural invariant of the `UserView` component that yields the
one-record-per-day gate: a captured-but-unsaved snapshot and a saved record
never coexist, and the camera is only ever open before today's record
exists and while no snapshot is pending. -/
def StateInv (s : UserViewState) : Prop :=
  (s.attendance.isSome = true → s.snapshot = none) ∧
  (s.cameraOpen = true → s.attendance = none) ∧
  (s.cameraOpen = true → s.snapshot = none)

/-- C1 helper: an unparseable capture timestamp always classifies as
"On time". -/
theorem resolveStatus_of_capturedAt_none (item : AttendanceRecord)
    (cutoffTime : String) (h : item.capturedAt = none) :
    resolveStatus item cutoffTime = "On time" := by
  unfold resolveStatus getLocalTimeParts
  rw [h]
  rcases hc : (parseCutoffTime cutoffTime).getD ⟨8, 0⟩ with ⟨ch, cm⟩
  by_cases h0 : 0 < ch
  · simp [h0]
  · simp [Nat.eq_zero_of_not_pos h0]

/-- C1: for every record with a parsed capture instant and every valid
`HH:mm` cutoff `T`, `resolveStatus` answers "On time" exactly when the
record's wall-clock hour/minute in its own zone is at or before `T`:
strictly before the cutoff hour, or at the cutoff hour with minute at most
the cutoff minute (inclusive boundary); anything later is "Late". -/
theorem resolveStatus_on_time_iff_within_cutoff
    (item : AttendanceRecord) (cutoffTime : String) (T : TimeParts) (t : Int)
    (hT : parseCutoffTime cutoffTime = some T)
    (ht : item.capturedAt = some t) :
    resolveStatus item cutoffTime = "On time" ↔
      ((getLocalTimeParts item.capturedAt item.tzOffset).hour < T.hour ∨
       ((getLocalTimeParts item.capturedAt item.tzOffset).hour = T.hour ∧
        (getLocalTimeParts item.capturedAt item.tzOffset).minute ≤ T.minute)) := by
  simp only [resolveStatus, hT, Option.getD_some]
  by_cases h1 : (getLocalTimeParts item.capturedAt item.tzOffset).hour < T.hour
  · rw [if_pos h1]
    exact iff_of_true rfl (Or.inl h1)
  · rw [if_neg h1]
    by_cases h2 : (getLocalTimeParts item.capturedAt item.tzOffset).hour = T.hour ∧
        (getLocalTimeParts item.capturedAt item.tzOffset).minute ≤ T.minute
    · rw [if_pos h2]
      exact iff_of_true rfl (Or.inr h2)
    · rw [if_neg h2]
      exact iff_of_false (by decide) (by tauto)

/-- Witness for C1: the record captured at 08:01 in its zone against the
valid cutoff "08:00" (the boundary case 08:01 is strictly later, so the
right-hand side is false and the classifier says "Late"). -/
theorem resolveStatus_on_time_iff_within_cutoff_witness :
    resolveStatus sampleRecord "08:00" = "On time" ↔
      ((getLocalTimeParts sampleRecord.capturedAt sampleRecord.tzOffset).hour <
          sampleCutoffParts.hour ∨
       ((getLocalTimeParts sampleRecord.capturedAt sampleRecord.tzOffset).hour =
          sampleCutoffParts.hour ∧
        (getLocalTimeParts sampleRecord.capturedAt sampleRecord.tzOffset).minute ≤
          sampleCutoffParts.minute)) :=
  resolveStatus_on_time_iff_within_cutoff sampleRecord "08:00" sampleCutoffParts
    481 (by decide) rfl

/-- C10: `resolveStatus` is total over arbitrary strings with silent
defaults — a cutoff that fails the `HH:mm` pattern is classified exactly as
the default cutoff "08:00" would classify, and a record whose `capturedAt`
does not parse is treated as wall-clock 00:00 and is therefore always
"On time", for every cutoff string. -/
theorem resolveStatus_total_defaults (item : AttendanceRecord)
    (cutoffTime : String) :
    (parseCutoffTime cutoffTime = none →
      resolveStatus item cutoffTime = resolveStatus item "08:00") ∧
    (item.capturedAt = none → resolveStatus item cutoffTime = "On time") := by
  constructor
  · intro h
    unfold resolveStatus
    rw [h]
    have h8 : parseCutoffTime "08:00" = some ⟨8, 0⟩ := by decide
    rw [h8]
    rfl
  · intro h
    exact resolveStatus_of_capturedAt_none item cutoffTime h

/-- Witness for C10: the malformed cutoff "8:00am" falls back to the
default, and the record with the unparseable timestamp is "On time" even
against the latest possible cutoff. -/
theorem resolveStatus_total_defaults_witness :
    resolveStatus sampleRecordNoTime "8:00am" =
        resolveStatus sampleRecordNoTime "08:00" ∧
      resolveStatus sampleRecordNoTime "00:00" = "On time" :=
  ⟨(resolveStatus_total_defaults sampleRecordNoTime "8:00am").1 (by decide),
   (resolveStatus_total_defaults sampleRecordNoTime "00:00").2 rfl⟩

/-- C8: the admin listing recomputes every row's status from the currently
configured cutoff via `resolveStatus`, ignoring the stored `status` field,
while the per-user history listing displays exactly the stored
server-computed status — `statusLabel` of the `status` field — and never
recomputes from the capture time or the cutoff. -/
theorem status_recomputed_in_admin_stored_in_history
    (item : AttendanceRecord) (items : List AttendanceRecord)
    (cutoffTime : String) (s1 s2 : String) (t1 t2 : Option Int) (z1 z2 : Int) :
    ((adminRowOfItem item cutoffTime).status = resolveStatus item cutoffTime) ∧
    ((attendanceRows items cutoffTime).map AdminRow.status =
      items.map (fun i => resolveStatus i cutoffTime)) ∧
    ((adminRowOfItem { item with status := s1 } cutoffTime).status =
      (adminRowOfItem { item with status := s2 } cutoffTime).status) ∧
    (historyRowStatus item =
      (if item.status = "late" then "Late" else "On time")) ∧
    (historyRowStatus { item with capturedAt := t1, tzOffset := z1 } =
      historyRowStatus { item with capturedAt := t2, tzOffset := z2 }) := by
  refine ⟨rfl, ?_, rfl, rfl, rfl⟩
  calc (attendanceRows items cutoffTime).map AdminRow.status
      = (items.map (fun i => adminRowOfItem i cutoffTime)).map AdminRow.status := rfl
    _ = items.map (AdminRow.status ∘ fun i => adminRowOfItem i cutoffTime) :=
        List.map_map ..
    _ = items.map (fun i => resolveStatus i cutoffTime) := rfl

/-- C2: in a supported, secure environment, a permission-denied failure
(`GeolocationPositionError` with code 1) at any tier makes the ladder
surface the permission-denied message immediately: after Tier 1 it issues
no watch and no Tier 3 request; after Tier 2 it issues no Tier 3 request;
after Tier 3 it surfaces the permission-denied message. -/
theorem getDeviceLocation_permission_denied_aborts (env : GeoEnv)
    (hs : env.geolocationSupported = true)
    (hsec : env.isSecureContext = true ∨ env.hostname = "localhost") :
    (env.tier1 = .error (.geo 1) →
      getDeviceLocation env =
        (.error (mapGeoError (.geo 1)), [.getCurrentPosition tier1Options]) ∧
      GeoRequest.watchPosition tier2Options ∉ (getDeviceLocation env).2 ∧
      GeoRequest.getCurrentPosition tier3Options ∉ (getDeviceLocation env).2) ∧
    (∀ e1, env.tier1 = .error e1 → isRetryableError e1 = true →
      env.tier2 = .error (.geo 1) →
      getDeviceLocation env =
        (.error (mapGeoError (.geo 1)),
         [.getCurrentPosition tier1Options, .watchPosition tier2Options]) ∧
      GeoRequest.getCurrentPosition tier3Options ∉ (getDeviceLocation env).2) ∧
    (∀ e1 e2, env.tier1 = .error e1 → isRetryableError e1 = true →
      env.tier2 = .error e2 → isRetryableError e2 = true →
      env.tier3 = .error (.geo 1) →
      getDeviceLocation env =
        (.error (mapGeoError (.geo 1)),
         [.getCurrentPosition tier1Options, .watchPosition tier2Options,
          .getCurrentPosition tier3Options])) := by
  have hg : ¬(env.geolocationSupported = false) := by simp [hs]
  have hg2 : ¬(env.isSecureContext = false ∧ env.hostname ≠ "localhost") := by
    rcases hsec with h | h
    · simp [h]
    · simp [h]
  have hpd : isRetryableError (JsError.geo 1) = false := rfl
  refine ⟨?_, ?_, ?_⟩
  · intro h1
    have heq : getDeviceLocation env =
        (.error (mapGeoError (.geo 1)), [.getCurrentPosition tier1Options]) := by
      rw [getDeviceLocation, if_neg hg, if_neg hg2]
      simp [h1, isRetryableError, mapGeoError]
    refine ⟨heq, ?_, ?_⟩ <;> rw [heq] <;> decide
  · intro e1 h1 hr1 h2
    have heq : getDeviceLocation env =
        (.error (mapGeoError (.geo 1)),
         [.getCurrentPosition tier1Options, .watchPosition tier2Options]) := by
      rw [getDeviceLocation, if_neg hg, if_neg hg2]
      simp [h1, h2, hr1, hpd, mapGeoError]
    refine ⟨heq, ?_⟩
    rw [heq]
    decide
  · intro e1 e2 h1 hr1 h2 hr2 h3
    rw [getDeviceLocation, if_neg hg, if_neg hg2]
    simp [h1, h2, h3, hr1, hr2, hpd, mapGeoError]

/-- Witness for C2: the environment whose Tier 1 request is denied stops
after a single device request and surfaces the permission-denied
message. -/
theorem getDeviceLocation_permission_denied_aborts_witness :
    getDeviceLocation pdEnv =
      (.error (mapGeoError (.geo 1)), [.getCurrentPosition tier1Options]) ∧
    GeoRequest.watchPosition tier2Options ∉ (getDeviceLocation pdEnv).2 ∧
    GeoRequest.getCurrentPosition tier3Options ∉ (getDeviceLocation pdEnv).2 :=
  (getDeviceLocation_permission_denied_aborts pdEnv rfl (Or.inl rfl)).1 rfl

/-- C3: in a supported, secure environment, retryable failures escalate
exactly through Tiers 1 → 2 → 3 in that fixed order and no further:
success at a tier stops the ladder with that tier's formatted fix, and when
all three tiers fail (the first two retryably) the caller observes only the
mapped Tier 3 error — the intermediate failures never surface. -/
theorem getDeviceLocation_retryable_escalation (env : GeoEnv)
    (hs : env.geolocationSupported = true)
    (hsec : env.isSecureContext = true ∨ env.hostname = "localhost") :
    (∀ p, env.tier1 = .ok p →
      getDeviceLocation env =
        (.ok (formatPosition p), [.getCurrentPosition tier1Options])) ∧
    (∀ e1 p, env.tier1 = .error e1 → isRetryableError e1 = true →
      env.tier2 = .ok p →
      getDeviceLocation env =
        (.ok (formatPosition p),
         [.getCurrentPosition tier1Options, .watchPosition tier2Options])) ∧
    (∀ e1 e2 p, env.tier1 = .error e1 → isRetryableError e1 = true →
      env.tier2 = .error e2 → isRetryableError e2 = true →
      env.tier3 = .ok p →
      getDeviceLocation env =
        (.ok (formatPosition p),
         [.getCurrentPosition tier1Options, .watchPosition tier2Options,
          .getCurrentPosition tier3Options])) ∧
    (∀ e1 e2 e3, env.tier1 = .error e1 → isRetryableError e1 = true →
      env.tier2 = .error e2 → isRetryableError e2 = true →
      env.tier3 = .error e3 →
      getDeviceLocation env =
        (.error (mapGeoError e3),
         [.getCurrentPosition tier1Options, .watchPosition tier2Options,
          .getCurrentPosition tier3Options])) := by
  have hg : ¬(env.geolocationSupported = false) := by simp [hs]
  have hg2 : ¬(env.isSecureContext = false ∧ env.hostname ≠ "localhost") := by
    rcases hsec with h | h
    · simp [h]
    · simp [h]
  refine ⟨?_, ?_, ?_, ?_⟩
  · intro p h1
    rw [getDeviceLocation, if_neg hg, if_neg hg2]
    simp [h1]
  · intro e1 p h1 hr1 h2
    rw [getDeviceLocation, if_neg hg, if_neg hg2]
    simp [h1, h2, hr1]
  · intro e1 e2 p h1 hr1 h2 hr2 h3
    rw [getDeviceLocation, if_neg hg, if_neg hg2]
    simp [h1, h2, h3, hr1, hr2]
  · intro e1 e2 e3 h1 hr1 h2 hr2 h3
    rw [getDeviceLocation, if_neg hg, if_neg hg2]
    simp [h1, h2, h3, hr1, hr2]

/-- Witness for C3: with a timeout at Tier 1, position-unavailable at
Tier 2 and a timeout at Tier 3, the ladder issues exactly the three tier
requests in order and surfaces only the mapped Tier 3 timeout message. -/
theorem getDeviceLocation_retryable_escalation_witness :
    getDeviceLocation escalateEnv =
      (.error (mapGeoError (.geo 3)),
       [.getCurrentPosition tier1Options, .watchPosition tier2Options,
        .getCurrentPosition tier3Options]) :=
  (getDeviceLocation_retryable_escalation escalateEnv rfl
      (Or.inl rfl)).2.2.2 (.geo 3) (.geo 2) (.geo 3) rfl (by decide) rfl
    (by decide) rfl

/-- C7: every run of the ladder issues (a prefix of) exactly these three
requests in order — Tier 1 a high-accuracy single shot with a 12 s timeout
and maximum cached age 0, Tier 2 a high-accuracy watch with a 20 s timeout
and maximum cached age 0, Tier 3 a low-accuracy single shot with a 20 s
timeout accepting cached fixes up to 60 s old — and the per-tier option
constants are exactly those values. -/
theorem getDeviceLocation_tier_parameters (env : GeoEnv) :
    List.IsPrefix (getDeviceLocation env).2
      [GeoRequest.getCurrentPosition
         { enableHighAccuracy := true, timeout := 12000, maximumAge := 0 },
       GeoRequest.watchPosition
         { enableHighAccuracy := true, timeout := 20000, maximumAge := 0 },
       GeoRequest.getCurrentPosition
         { enableHighAccuracy := false, timeout := 20000, maximumAge := 60000 }] ∧
    tier1Options =
      { enableHighAccuracy := true, timeout := 12000, maximumAge := 0 } ∧
    tier2Options =
      { enableHighAccuracy := true, timeout := 20000, maximumAge := 0 } ∧
    tier3Options =
      { enableHighAccuracy := false, timeout := 20000, maximumAge := 60000 } := by
  refine ⟨?_, rfl, rfl, rfl⟩
  by_cases hg : env.geolocationSupported = false
  · have htr : (getDeviceLocation env).2 = [] := by
      rw [getDeviceLocation, if_pos hg]
    rw [htr]
    decide
  · by_cases hsec : env.isSecureContext = false ∧ env.hostname ≠ "localhost"
    · have htr : (getDeviceLocation env).2 = [] := by
        rw [getDeviceLocation, if_neg hg, if_pos hsec]
      rw [htr]
      decide
    · rcases h1 : env.tier1 with e1 | p1
      · by_cases hr1 : isRetryableError e1 = true
        · rcases h2 : env.tier2 with e2 | p2
          · by_cases hr2 : isRetryableError e2 = true
            · rcases h3 : env.tier3 with e3 | p3
              · have htr : (getDeviceLocation env).2 =
                    [.getCurrentPosition tier1Options,
                     .watchPosition tier2Options,
                     .getCurrentPosition tier3Options] := by
                  rw [getDeviceLocation, if_neg hg, if_neg hsec]
                  simp [h1, h2, h3, hr1, hr2]
                rw [htr]
                decide
              · have htr : (getDeviceLocation env).2 =
                    [.getCurrentPosition tier1Options,
                     .watchPosition tier2Options,
                     .getCurrentPosition tier3Options] := by
                  rw [getDeviceLocation, if_neg hg, if_neg hsec]
                  simp [h1, h2, h3, hr1, hr2]
                rw [htr]
                decide
            · have htr : (getDeviceLocation env).2 =
                  [.getCurrentPosition tier1Options,
                   .watchPosition tier2Options] := by
                rw [getDeviceLocation, if_neg hg, if_neg hsec]
                simp [h1, h2, hr1, hr2]
              rw [htr]
              decide
          · have htr : (getDeviceLocation env).2 =
                [.getCurrentPosition tier1Options,
                 .watchPosition tier2Options] := by
              rw [getDeviceLocation, if_neg hg, if_neg hsec]
              simp [h1, h2, hr1]
            rw [htr]
            decide
        · have htr : (getDeviceLocation env).2 =
              [.getCurrentPosition tier1Options] := by
            rw [getDeviceLocation, if_neg hg, if_neg hsec]
            simp [h1, hr1]
          rw [htr]
          decide
      · have htr : (getDeviceLocation env).2 =
            [.getCurrentPosition tier1Options] := by
          rw [getDeviceLocation, if_neg hg, if_neg hsec]
          simp [h1]
        rw [htr]
        decide

/-- C9: every successful run of the ladder returns `formatPosition` of the
coordinates delivered by one of the three tiers: `source = gps`, accuracy
rounded to the nearest meter, and the label synthesized exactly as
"GPS {lat}, {lng} (plus-minus {accuracy}m)" with the coordinates rendered
to 5 decimal places. -/
theorem getDeviceLocation_success_format (env : GeoEnv) (r : LocationResult)
    (tr : List GeoRequest) (h : getDeviceLocation env = (.ok r, tr)) :
    ∃ p : GeoCoords,
      (env.tier1 = .ok p ∨ env.tier2 = .ok p ∨ env.tier3 = .ok p) ∧
      r = formatPosition p ∧
      r.source = Source.gps ∧
      r.accuracy = some (jsRound p.accuracy) ∧
      r.label = "GPS " ++ toFixed5 p.latitude ++ ", " ++ toFixed5 p.longitude ++
        " (+/-" ++ toString (jsRound p.accuracy) ++ "m)" := by
  by_cases hg : env.geolocationSupported = false
  · rw [getDeviceLocation, if_pos hg] at h
    simp at h
  by_cases hsec : env.isSecureContext = false ∧ env.hostname ≠ "localhost"
  · rw [getDeviceLocation, if_neg hg, if_pos hsec] at h
    simp at h
  rw [getDeviceLocation, if_neg hg, if_neg hsec] at h
  rcases h1 : env.tier1 with e1 | p1
  · rw [h1] at h
    by_cases hr1 : isRetryableError e1 = true
    · rcases h2 : env.tier2 with e2 | p2
      · rw [h2] at h
        by_cases hr2 : isRetryableError e2 = true
        · rcases h3 : env.tier3 with e3 | p3
          · rw [h3] at h
            simp [hr1, hr2] at h
          · rw [h3] at h
            simp [hr1, hr2] at h
            obtain ⟨hr, htr⟩ := h
            subst hr
            exact ⟨p3, Or.inr (Or.inr rfl), rfl, rfl, rfl, rfl⟩
        · simp [hr1, hr2] at h
      · rw [h2] at h
        simp [hr1] at h
        obtain ⟨hr, htr⟩ := h
        subst hr
        exact ⟨p2, Or.inr (Or.inl rfl), rfl, rfl, rfl, rfl⟩
    · simp [hr1] at h
  · rw [h1] at h
    simp at h
    obtain ⟨hr, htr⟩ := h
    subst hr
    exact ⟨p1, Or.inl rfl, rfl, rfl, rfl, rfl⟩

/-- Witness for C9: the environment whose Tier 1 request succeeds with the
sample coordinates. -/
theorem getDeviceLocation_success_format_witness :
    ∃ p : GeoCoords,
      (successEnv.tier1 = .ok p ∨ successEnv.tier2 = .ok p ∨
        successEnv.tier3 = .ok p) ∧
      formatPosition sampleCoords = formatPosition p ∧
      (formatPosition sampleCoords).source = Source.gps ∧
      (formatPosition sampleCoords).accuracy = some (jsRound p.accuracy) ∧
      (formatPosition sampleCoords).label =
        "GPS " ++ toFixed5 p.latitude ++ ", " ++ toFixed5 p.longitude ++
          " (+/-" ++ toString (jsRound p.accuracy) ++ "m)" :=
  getDeviceLocation_success_format successEnv (formatPosition sampleCoords)
    [.getCurrentPosition tier1Options] rfl

/-- A save run never touches the camera flag. -/
theorem handleUploadAndSave_cameraOpen (s : UserViewState) (o : SaveOutcomes) :
    (handleUploadAndSave s o).1.cameraOpen = s.cameraOpen := by
  rw [handleUploadAndSave]
  by_cases h0 : s.snapshot.isNone ∨ s.token.isNone
  · rw [if_pos h0]
  · rw [if_neg h0]
    rcases hloc : s.location with _ | cached <;>
      rcases hup : o.uploadOutcome with msg | up <;>
        rcases hcr : o.createOutcome with msg2 | rec <;>
          rcases hdev : o.locationOutcome with dmsg | dres <;>
            by_cases hsrc : s.locationSource.isNone <;>
              simp [hloc, hup, hcr, hdev, hsrc]

/-- A save run never touches the token. -/
theorem handleUploadAndSave_token (s : UserViewState) (o : SaveOutcomes) :
    (handleUploadAndSave s o).1.token = s.token := by
  rw [handleUploadAndSave]
  by_cases h0 : s.snapshot.isNone ∨ s.token.isNone
  · rw [if_pos h0]
  · rw [if_neg h0]
    rcases hloc : s.location with _ | cached <;>
      rcases hup : o.uploadOutcome with msg | up <;>
        rcases hcr : o.createOutcome with msg2 | rec <;>
          rcases hdev : o.locationOutcome with dmsg | dres <;>
            by_cases hsrc : s.locationSource.isNone <;>
              simp [hloc, hup, hcr, hdev, hsrc]

/-- A save run either leaves both the attendance slot and the snapshot
untouched, or — exactly when the record-creation call succeeded on a
present snapshot — stores the returned record and clears the snapshot. -/
theorem handleUploadAndSave_att_snap (s : UserViewState) (o : SaveOutcomes) :
    ((handleUploadAndSave s o).1.attendance = s.attendance ∧
       (handleUploadAndSave s o).1.snapshot = s.snapshot) ∨
    (∃ r, o.createOutcome = .ok r ∧
       (handleUploadAndSave s o).1.attendance = some r ∧
       (handleUploadAndSave s o).1.snapshot = none ∧
       s.snapshot.isSome = true) := by
  by_cases h0 : s.snapshot.isNone ∨ s.token.isNone
  · left
    rw [handleUploadAndSave, if_pos h0]
    exact ⟨rfl, rfl⟩
  · have hsnap : s.snapshot.isSome = true := by
      rcases h : s.snapshot with _ | v
      · exact absurd (Or.inl (by rw [h]; rfl)) h0
      · rfl
    rw [handleUploadAndSave, if_neg h0]
    rcases hloc : s.location with _ | cached <;>
      rcases hup : o.uploadOutcome with msg | up <;>
        rcases hcr : o.createOutcome with msg2 | rec <;>
          rcases hdev : o.locationOutcome with dmsg | dres <;>
            by_cases hsrc : s.locationSource.isNone <;>
              simp [hloc, hup, hcr, hdev, hsrc, hsnap]

/-- Without a pending snapshot the save handler is a no-op and issues no
remote call at all (the `if (!snapshot || !token) return` guard). -/
theorem handleUploadAndSave_of_snapshot_none (s : UserViewState)
    (o : SaveOutcomes) (h : s.snapshot = none) :
    handleUploadAndSave s o = (s, []) := by
  rw [handleUploadAndSave, if_pos (Or.inl (by rw [h]; rfl))]

/-- Transfer of the component invariant along equal core fields. -/
theorem stateInv_of_fields {s t : UserViewState}
    (hatt : t.attendance = s.attendance) (hsnap : t.snapshot = s.snapshot)
    (hcam : t.cameraOpen = s.cameraOpen) (h : StateInv s) : StateInv t := by
  obtain ⟨h1, h2, h3⟩ := h
  refine ⟨?_, ?_, ?_⟩
  · intro hh
    rw [hsnap]
    exact h1 (hatt ▸ hh)
  · intro hh
    rw [hatt]
    exact h2 (hcam ▸ hh)
  · intro hh
    rw [hsnap]
    exact h3 (hcam ▸ hh)

/-- Every component interaction preserves the structural invariant. -/
theorem stepEvent_preserves_inv (s : UserViewState) (e : UserEvent)
    (h : StateInv s) : StateInv (stepEvent s e) := by
  obtain ⟨h1, h2, h3⟩ := h
  cases e with
  | toggleCamera =>
    rcases hA : s.attendance with _ | arec
    · by_cases hc : s.cameraOpen <;> simp [stepEvent, StateInv, hA, hc]
    · simp only [stepEvent, hA, Option.isSome_some, if_pos]
      exact ⟨h1, h2, h3⟩
  | capturePhoto d =>
    by_cases hc : s.cameraOpen
    · have hA := h2 hc
      simp [stepEvent, StateInv, hc, hA]
    · simp only [stepEvent, if_neg hc]
      exact ⟨h1, h2, h3⟩
  | uploadAndSave o =>
    show StateInv (handleUploadAndSave s o).1
    have hc := handleUploadAndSave_cameraOpen s o
    rcases handleUploadAndSave_att_snap s o with ⟨ha, hs⟩ | ⟨r, _, ha, hs, hsnap⟩
    · exact stateInv_of_fields ha hs hc ⟨h1, h2, h3⟩
    · refine ⟨fun _ => hs, fun hh => ?_, fun _ => hs⟩
      rw [hc] at hh
      rw [h3 hh] at hsnap
      exact absurd hsnap (by simp)
  | retakePhoto =>
    by_cases hg : s.snapshot.isSome ∧ s.attendance.isNone
    · have hA : s.attendance = none := Option.isNone_iff_eq_none.mp hg.2
      simp [stepEvent, StateInv, hg, hA]
    · simp only [stepEvent, if_neg hg]
      exact ⟨h1, h2, h3⟩
  | deleteRecord outcome =>
    by_cases hg : s.attendance.isNone ∨ s.token.isNone
    · simp only [stepEvent, if_pos hg]
      exact ⟨h1, h2, h3⟩
    · rcases outcome with msg | u <;> simp only [stepEvent, if_neg hg]
      · exact stateInv_of_fields rfl rfl rfl ⟨h1, h2, h3⟩
      · exact ⟨fun hh => by simp at hh, fun _ => rfl, fun hh => h3 hh⟩
  | checkLocation outcome =>
    rcases outcome with msg | r <;> simp only [stepEvent] <;>
      exact stateInv_of_fields rfl rfl rfl ⟨h1, h2, h3⟩
  | useNetworkLocation label coords =>
    by_cases ht : s.token.isNone
    · simp only [stepEvent, if_pos ht]
      exact ⟨h1, h2, h3⟩
    · rcases coords with _ | ⟨lat, lng⟩ <;> simp only [stepEvent, if_neg ht] <;>
        exact stateInv_of_fields rfl rfl rfl ⟨h1, h2, h3⟩
  | networkLocationFailed msg =>
    by_cases ht : s.token.isNone
    · simp only [stepEvent, if_pos ht]
      exact ⟨h1, h2, h3⟩
    · simp only [stepEvent, if_neg ht]
      exact stateInv_of_fields rfl rfl rfl ⟨h1, h2, h3⟩

/-- Running any interaction sequence preserves the invariant. -/
theorem runEvents_preserves_inv (evs : List UserEvent) :
    ∀ s : UserViewState, StateInv s → StateInv (runEvents s evs) := by
  induction evs with
  | nil => exact fun s h => h
  | cons e rest ih => exact fun s h => ih _ (stepEvent_preserves_inv s e h)

/-- The mount state satisfies the invariant. -/
theorem initState_inv (a : Option AttendanceRecord) (tok : Option String) :
    StateInv (initState a tok) :=
  ⟨fun _ => rfl, fun hh => absurd hh Bool.false_ne_true, fun _ => rfl⟩

/-- Once today's record exists, every non-delete interaction keeps it. -/
theorem stepEvent_keeps_attendance (s : UserViewState) (e : UserEvent)
    (h : s.attendance.isSome = true) (hne : isDeleteEvent e = false) :
    (stepEvent s e).attendance.isSome = true := by
  cases e with
  | toggleCamera => simp [stepEvent, h]
  | capturePhoto d => by_cases hc : s.cameraOpen <;> simp [stepEvent, hc, h]
  | uploadAndSave o =>
    rcases handleUploadAndSave_att_snap s o with ⟨ha, _⟩ | ⟨r, _, ha, _, _⟩
    · show (handleUploadAndSave s o).1.attendance.isSome = true
      rw [ha]
      exact h
    · show (handleUploadAndSave s o).1.attendance.isSome = true
      rw [ha]
      rfl
  | retakePhoto =>
    rcases hA : s.attendance with _ | arec
    · rw [hA] at h
      simp at h
    · simp [stepEvent, hA]
  | deleteRecord outcome => simp [isDeleteEvent] at hne
  | checkLocation outcome => rcases outcome with msg | r <;> simp [stepEvent, h]
  | useNetworkLocation label coords =>
    by_cases ht : s.token.isNone
    · simp [stepEvent, ht, h]
    · rcases coords with _ | ⟨lat, lng⟩ <;> simp [stepEvent, ht, h]
  | networkLocationFailed msg =>
    by_cases ht : s.token.isNone <;> simp [stepEvent, ht, h]

/-- Once today's record exists, any delete-free interaction sequence keeps
it. -/
theorem runEvents_keeps_attendance (evs : List UserEvent) :
    ∀ s : UserViewState, s.attendance.isSome = true →
      (∀ e ∈ evs, isDeleteEvent e = false) →
      (runEvents s evs).attendance.isSome = true := by
  induction evs with
  | nil => exact fun s h _ => h
  | cons e rest ih =>
    intro s h hall
    exact ih _ (stepEvent_keeps_attendance s e h (hall e (by simp)))
      (fun x hx => hall x (by simp [hx]))

/-- C4: at most one attendance record per user per day in the component.
(i) In every reachable state that already holds today's record, the save
handler is a no-op issuing no remote call (so no second record can be
created); (ii) a successful delete clears the local today slot; (iii) while
the slot is filled, no delete-free interaction sequence can empty it — so
after a delete exactly one subsequent creation is possible before the gate
closes again. -/
theorem attendance_one_per_day :
    (∀ (a : Option AttendanceRecord) (tok : Option String)
        (evs : List UserEvent) (o : SaveOutcomes),
      (runEvents (initState a tok) evs).attendance.isSome = true →
        handleUploadAndSave (runEvents (initState a tok) evs) o =
          (runEvents (initState a tok) evs, [])) ∧
    (∀ s : UserViewState, s.attendance.isSome = true → s.token.isSome = true →
      (stepEvent s (UserEvent.deleteRecord (.ok ()))).attendance = none) ∧
    (∀ (s : UserViewState) (evs : List UserEvent),
      s.attendance.isSome = true →
      (∀ e ∈ evs, isDeleteEvent e = false) →
      (runEvents s evs).attendance.isSome = true) := by
  refine ⟨?_, ?_, ?_⟩
  · intro a tok evs o hAtt
    have hinv := runEvents_preserves_inv evs (initState a tok)
      (initState_inv a tok)
    exact handleUploadAndSave_of_snapshot_none _ o (hinv.1 hAtt)
  · intro s hA hT
    rcases hA' : s.attendance with _ | arec
    · rw [hA'] at hA
      simp at hA
    rcases hT' : s.token with _ | tk
    · rw [hT'] at hT
      simp at hT
    simp [stepEvent, hA', hT']
  · intro s evs hA hall
    exact runEvents_keeps_attendance evs s hA hall

/-- Witness for C4: in a checked-in state the save handler does nothing,
a successful delete empties the slot, and a delete-free interaction keeps
the slot filled. -/
theorem attendance_one_per_day_witness :
    handleUploadAndSave (runEvents (initState (some sampleRecord) (some "tok")) [])
        okOutcomes =
      (runEvents (initState (some sampleRecord) (some "tok")) [], []) ∧
    (stepEvent checkedInState (UserEvent.deleteRecord (.ok ()))).attendance =
      none ∧
    (runEvents checkedInState [UserEvent.toggleCamera]).attendance.isSome =
      true :=
  ⟨attendance_one_per_day.1 (some sampleRecord) (some "tok") [] okOutcomes rfl,
   attendance_one_per_day.2.1 checkedInState rfl rfl,
   attendance_one_per_day.2.2 checkedInState [UserEvent.toggleCamera] rfl
     (by
       intro e he
       simp at he
       subst he
       rfl)⟩

/-- C5: within one save attempt the remote calls are issued strictly in the
order position-resolution (only when no session-cached position exists),
then photo upload, then record creation — the trace is always a prefix of
that sequence; a position-resolution failure aborts the save with only the
device-location request issued and the state unchanged except for the error
fields; a record-creation call is only ever issued carrying the reference
returned by a successful upload that precedes it; and a session-cached
position suppresses the device request entirely. -/
theorem save_remote_call_ordering (s : UserViewState) (o : SaveOutcomes) :
    (List.IsPrefix (handleUploadAndSave s o).2
       ((if s.location.isNone then [RemoteCall.deviceLocation] else []) ++
         [RemoteCall.uploadPhoto (s.snapshot.getD "")] ++
         (match o.uploadOutcome with
          | .ok up => [RemoteCall.createAttendance up.url up.publicId]
          | .error _ => []))) ∧
    (∀ snap tk msg, s.snapshot = some snap → s.token = some tk →
      s.location = none → o.locationOutcome = .error msg →
      handleUploadAndSave s o =
        ({ s with uploading := false, error := msg, locationError := msg },
         [RemoteCall.deviceLocation])) ∧
    (∀ u pu, RemoteCall.createAttendance u pu ∈ (handleUploadAndSave s o).2 →
      o.uploadOutcome = .ok ⟨u, pu⟩ ∧
      RemoteCall.uploadPhoto (s.snapshot.getD "") ∈
        (handleUploadAndSave s o).2) ∧
    (s.location.isSome = true →
      RemoteCall.deviceLocation ∉ (handleUploadAndSave s o).2) := by
  by_cases h0 : s.snapshot.isNone ∨ s.token.isNone
  · have heq : handleUploadAndSave s o = (s, []) := by
      rw [handleUploadAndSave, if_pos h0]
    refine ⟨?_, ?_, ?_, ?_⟩
    · rw [heq]
      exact ⟨_, rfl⟩
    · intro snap tk msg hsnap htok hlocn hdevn
      rcases h0 with h | h
      · rw [hsnap] at h
        simp at h
      · rw [htok] at h
        simp at h
    · intro u pu hmem
      rw [heq] at hmem
      simp at hmem
    · intro hlocs
      rw [heq]
      simp
  · have htrace : (handleUploadAndSave s o).2 =
        ((if s.location.isNone then [RemoteCall.deviceLocation] else []) ++
          (match o.locationOutcome, s.location with
           | .error _, none => []
           | _, _ =>
             [RemoteCall.uploadPhoto (s.snapshot.getD "")] ++
               (match o.uploadOutcome with
                | .ok up =>
                  [RemoteCall.createAttendance up.url up.publicId]
                | .error _ => []))) := by
      rw [handleUploadAndSave, if_neg h0]
      rcases hloc : s.location with _ | cached <;>
        rcases hup : o.uploadOutcome with msg | up <;>
          rcases hcr : o.createOutcome with msg2 | rec <;>
            rcases hdev : o.locationOutcome with dmsg | dres <;>
              simp [hloc, hup, hcr, hdev]
    refine ⟨?_, ?_, ?_, ?_⟩
    · rw [htrace]
      rcases hloc : s.location with _ | cached <;>
        rcases hup : o.uploadOutcome with msg | up <;>
          rcases hdev : o.locationOutcome with dmsg | dres <;>
            exact ⟨_, rfl⟩
    · intro snap tk msg hsnap htok hlocn hdevn
      rw [handleUploadAndSave, if_neg h0]
      simp [hlocn, hdevn]
    · intro u pu hmem
      rw [htrace] at hmem
      rcases hloc : s.location with _ | cached <;>
        rcases hup : o.uploadOutcome with msg | up <;>
          rcases hdev : o.locationOutcome with dmsg | dres <;>
            rw [hloc, hup, hdev] at hmem <;> simp at hmem
      all_goals
        obtain ⟨h1, h2⟩ := hmem
        subst h1
        subst h2
        refine ⟨rfl, ?_⟩
        rw [htrace, hloc, hup, hdev]
        simp
    · intro hlocs
      rcases hloc : s.location with _ | cached
      · rw [hloc] at hlocs
        simp at hlocs
      · rw [htrace, hloc]
        rcases hup : o.uploadOutcome with msg | up <;>
          rcases hdev : o.locationOutcome with dmsg | dres <;>
            simp

/-- Witness for C5: with no cached position and a failing position
resolution the save issues only the device-location request and aborts;
with every step succeeding, the record-creation call carries exactly the
reference returned by the upload, which was issued in the same run. -/
theorem save_remote_call_ordering_witness :
    handleUploadAndSave readyState locFailOutcomes =
      ({ readyState with
          uploading := false
          error := "Location request timed out. Try again in a few seconds."
          locationError :=
            "Location request timed out. Try again in a few seconds." },
       [RemoteCall.deviceLocation]) ∧
    (okOutcomes.uploadOutcome = .ok ⟨"https://cdn.example.com/p.jpg", "p1"⟩ ∧
     RemoteCall.uploadPhoto (readyState.snapshot.getD "") ∈
       (handleUploadAndSave readyState okOutcomes).2) :=
  ⟨(save_remote_call_ordering readyState locFailOutcomes).2.1
      "data:image/jpeg;base64,AAA" "tok"
      "Location request timed out. Try again in a few seconds." rfl rfl rfl rfl,
   (save_remote_call_ordering readyState okOutcomes).2.2.1
      "https://cdn.example.com/p.jpg" "p1" (by decide)⟩

/-- C6: the captured snapshot is retained in local state across any failed
save attempt — an upload failure, a record-creation failure, or a
position-resolution failure all leave the snapshot exactly as it was — and
the snapshot is cleared only on a fully successful save, at which point the
local state holds the canonical record returned by the server. -/
theorem snapshot_retained_until_success (s : UserViewState)
    (o : SaveOutcomes) :
    (∀ msg, o.uploadOutcome = .error msg →
      (handleUploadAndSave s o).1.snapshot = s.snapshot) ∧
    (∀ msg, o.createOutcome = .error msg →
      (handleUploadAndSave s o).1.snapshot = s.snapshot) ∧
    (∀ msg, s.location = none → o.locationOutcome = .error msg →
      (handleUploadAndSave s o).1.snapshot = s.snapshot) ∧
    (∀ snap tk lr up rec, s.snapshot = some snap → s.token = some tk →
      (s.location = some lr ∨
        (s.location = none ∧ o.locationOutcome = .ok lr)) →
      o.uploadOutcome = .ok up → o.createOutcome = .ok rec →
      (handleUploadAndSave s o).1.snapshot = none ∧
      (handleUploadAndSave s o).1.attendance = some rec) := by
  by_cases h0 : s.snapshot.isNone ∨ s.token.isNone
  · have heq : handleUploadAndSave s o = (s, []) := by
      rw [handleUploadAndSave, if_pos h0]
    refine ⟨fun msg _ => by rw [heq], fun msg _ => by rw [heq],
      fun msg _ _ => by rw [heq], ?_⟩
    intro snap tk lr up rec hsnap htok hres hup hcr
    rcases h0 with h | h
    · rw [hsnap] at h
      simp at h
    · rw [htok] at h
      simp at h
  · refine ⟨?_, ?_, ?_, ?_⟩
    · intro msg hup
      rw [handleUploadAndSave, if_neg h0]
      rcases hloc : s.location with _ | cached <;>
        rcases hdev : o.locationOutcome with dmsg | dres <;>
          by_cases hsrc : s.locationSource.isNone <;>
            simp [hloc, hdev, hsrc, hup]
    · intro msg hcr
      rw [handleUploadAndSave, if_neg h0]
      rcases hloc : s.location with _ | cached <;>
        rcases hup : o.uploadOutcome with m2 | up <;>
          rcases hdev : o.locationOutcome with dmsg | dres <;>
            by_cases hsrc : s.locationSource.isNone <;>
              simp [hloc, hup, hdev, hsrc, hcr]
    · intro msg hlocn hdevn
      rw [handleUploadAndSave, if_neg h0]
      simp [hlocn, hdevn]
    · intro snap tk lr up rec hsnap htok hres hup hcr
      rw [handleUploadAndSave, if_neg h0]
      rcases hres with hloc | ⟨hloc, hdev⟩
      · by_cases hsrc : s.locationSource.isNone <;>
          simp [hloc, hup, hcr, hsrc]
      · by_cases hsrc : s.locationSource.isNone <;>
          simp [hloc, hdev, hup, hcr, hsrc]

/-- Witness for C6: a failed upload leaves the snapshot untouched in the
ready state; a fully successful save clears it and installs the canonical
record. -/
theorem snapshot_retained_until_success_witness :
    (handleUploadAndSave readyState uploadFailOutcomes).1.snapshot =
      readyState.snapshot ∧
    ((handleUploadAndSave readyState okOutcomes).1.snapshot = none ∧
     (handleUploadAndSave readyState okOutcomes).1.attendance =
       some sampleRecord) :=
  ⟨(snapshot_retained_until_success readyState uploadFailOutcomes).1
      "Upload failed" rfl,
   (snapshot_retained_until_success readyState okOutcomes).2.2.2
      "data:image/jpeg;base64,AAA" "tok" sampleLocation
      ⟨"https://cdn.example.com/p.jpg", "p1"⟩ sampleRecord rfl rfl
      (Or.inr ⟨rfl, rfl⟩) rfl rfl⟩
